import Mathlib

/-!
# Verification of the self-limiters coordination core

Shallow embedding of the repository's distributed Semaphore and
TokenBucket primitives and of their shared key/value-store substrate.
Pure functions of the sources are translated to Lean functions; the
store is an explicit state record; fallible operations return `Except`.
The Rust coordination core is not part of the checked sources, so its
operations are modelled from the specification (each such definition
says so in its doc comment); the Python sources (the helper
src/scripts/run_script.py and the test suite) are translated directly.
-/

namespace SelfLimiters

/-! ## Store model -/

/-- Value held at a key of the shared key/value store: either a list
(the semaphore permit queue) or a plain string. -/
inductive RVal where
  | list (items : List String)
  | str (s : String)
deriving DecidableEq

/-- Errors surfaced by the core (spec section 7): `maxSleepExceeded`
when a wait bound is exceeded, `storeError` for any transport, protocol,
wrong-type or script failure coming from the store. -/
inductive SLError where
  | maxSleepExceeded (msg : String)
  | storeError (msg : String)
deriving DecidableEq

/-- State of the shared store: a value map and a TTL map over keys. -/
structure Store where
  val : String → Option RVal
  ttl : String → Option Nat

/-- Write a value at a key (as Redis `SET`/`LPUSH`-family commands do). -/
def Store.setVal (σ : Store) (k : String) (v : RVal) : Store :=
  ⟨fun x => if x = k then some v else σ.val x, σ.ttl⟩

/-- Set the TTL of a key (Redis `EXPIRE`). -/
def Store.expire (σ : Store) (k : String) (t : Nat) : Store :=
  ⟨σ.val, fun x => if x = k then some t else σ.ttl x⟩

/-- The store with no keys set. -/
def emptyStore : Store := ⟨fun _ => none, fun _ => none⟩

/-- The message Redis answers with when a list command hits a key that
holds a non-list value (quoted in tests/test_errors.py). -/
def wrongTypeMsg : String :=
  "WRONGTYPE Operation against a key holding the wrong kind of value"

/-! ## Key layout -/

/-- Modelled from the spec: the key layout of the Rust core, which is
not under src/ (spec section 6, confirmed by the keys asserted in
tests/test_semaphore.py::test_redis_instructions). The semaphore queue
key joins the fixed namespace tag with the limiter name. -/
def queueKey (name : String) : String := "__self-limiters:" ++ name

/-- Modelled from the spec: the semaphore sentinel key is the queue key
followed by "-exists" (spec section 6). -/
def sentinelKey (name : String) : String := queueKey name ++ "-exists"

/-! ## Python-facing values and constructor validation -/

/-- A Python value as seen by the pyo3 constructor boundary: the only
shapes exercised by the recognized-options table and its tests. -/
inductive PyValue where
  | pyInt (n : Int)
  | pyFloat (q : Rat)
  | pyStr (s : String)
  | pyBool (b : Bool)
  | pyNone
deriving DecidableEq

/-- Python-side exceptions of the constructor boundary: wrong parameter
type, out-of-range parameter value, and frozen-attribute assignment. -/
inductive PyExc where
  | typeErr
  | valueErr
  | attributeErr (msg : String)
deriving DecidableEq

/-- Modelled from the spec: extraction of a required string parameter
(`name`, `redis_url`); any non-string value is a type error, as the
tests require for int, bool and None arguments. -/
def extractStr : PyValue → Except PyExc String
  | PyValue.pyStr s => Except.ok s
  | _ => Except.error PyExc.typeErr

/-- Modelled from the spec: extraction of a required integer parameter
(`capacity`, `refill_amount`, `expiry`); floats, strings, booleans and
None are type errors, as the tests require. -/
def extractInt : PyValue → Except PyExc Int
  | PyValue.pyInt n => Except.ok n
  | _ => Except.error PyExc.typeErr

/-- Modelled from the spec: extraction of a required float parameter
(`refill_frequency`); an integer is accepted and widened, while
strings, booleans and None are type errors, as the tests require. -/
def extractFloat : PyValue → Except PyExc Rat
  | PyValue.pyFloat q => Except.ok q
  | PyValue.pyInt n => Except.ok (n : Rat)
  | _ => Except.error PyExc.typeErr

/-- Modelled from the spec: extraction of the optional `max_sleep`
parameter. An omitted argument and an explicit None both yield the
default 0 (unbounded waiting); otherwise the value must be numeric. -/
def extractOptFloat : Option PyValue → Except PyExc Rat
  | Option.none => Except.ok 0
  | some PyValue.pyNone => Except.ok 0
  | some v => extractFloat v

/-- Whether a `PyValue` is a string (the recognized-options table's
constraint for `name` and `redis_url`). -/
def isStrVal : PyValue → Bool
  | PyValue.pyStr _ => true
  | _ => false

/-- Whether a `PyValue` is an integer at least `k` (the table's
constraint for `capacity`, `refill_amount` and `expiry`). -/
def intGe (k : Int) : PyValue → Bool
  | PyValue.pyInt n => decide (k ≤ n)
  | _ => false

/-- Whether a `PyValue` is a strictly positive number (the table's
constraint for `refill_frequency`). -/
def numPos : PyValue → Bool
  | PyValue.pyInt n => decide (0 < n)
  | PyValue.pyFloat q => decide (0 < q)
  | _ => false

/-- Whether an optional `PyValue` is an admissible `max_sleep`:
omitted, None, or a non-negative number. -/
def optNumNonneg : Option PyValue → Bool
  | Option.none => true
  | some PyValue.pyNone => true
  | some (PyValue.pyInt n) => decide (0 ≤ n)
  | some (PyValue.pyFloat q) => decide (0 ≤ q)
  | _ => false

/-- Whether an `Except` computation succeeded. -/
def exceptOk {ε α : Type} : Except ε α → Bool
  | Except.ok _ => true
  | Except.error _ => false

/-- Whether a core operation failed with MaxSleepExceeded. -/
def isMaxSleepErr {α : Type} : Except SLError α → Bool
  | Except.error (SLError.maxSleepExceeded _) => true
  | _ => false

instance {ε α : Type} [DecidableEq ε] [DecidableEq α] :
    DecidableEq (Except ε α) := fun x y =>
  match x, y with
  | Except.error a, Except.error b =>
      if h : a = b then Decidable.isTrue (by rw [h])
      else Decidable.isFalse (by simp [h])
  | Except.ok a, Except.ok b =>
      if h : a = b then Decidable.isTrue (by rw [h])
      else Decidable.isFalse (by simp [h])
  | Except.error _, Except.ok _ => Decidable.isFalse (by simp)
  | Except.ok _, Except.error _ => Decidable.isFalse (by simp)

/-! ## Semaphore limiter object -/

/-- Modelled from the spec: the constructed attributes of the Semaphore
pyo3 class of the Rust core (not under src/). The readable `name`
attribute holds the fully-qualified queue key, as asserted by
tests/test_semaphore.py::test_class_attributes. -/
structure Semaphore where
  name : String
  capacity : Nat
  maxSleep : Rat
  expiry : Nat
  redisUrl : String
deriving DecidableEq

/-- Modelled from the spec: Semaphore construction (no store I/O is
performed; the raw name is joined into the key layout). -/
def Semaphore.create (rawName : String) (capacity : Nat) (maxSleep : Rat)
    (expiry : Nat) (redisUrl : String) : Semaphore :=
  ⟨queueKey rawName, capacity, maxSleep, expiry, redisUrl⟩

/-- Modelled from the spec: the string representation of a Semaphore
exposes the fully-qualified queue key (spec section 6, and
tests/test_semaphore.py::test_repr). -/
def Semaphore.reprString (s : Semaphore) : String :=
  "Semaphore instance for queue " ++ s.name

/-- Modelled from the spec: validation of the Semaphore constructor
arguments (spec sections 6 and 7: every parameter is checked against
the recognized-options table before any I/O; the constructor takes no
store state). Wrong types fail with a type error; a capacity below 1 or
a negative max_sleep or expiry fails with a value error. -/
def validateSemaphore (name capacity redisUrl : PyValue)
    (maxSleep : Option PyValue) (expiry : PyValue) : Except PyExc Semaphore :=
  match extractStr name with
  | Except.error e => Except.error e
  | Except.ok n =>
  match extractInt capacity with
  | Except.error e => Except.error e
  | Except.ok c =>
  match extractStr redisUrl with
  | Except.error e => Except.error e
  | Except.ok u =>
  match extractOptFloat maxSleep with
  | Except.error e => Except.error e
  | Except.ok m =>
  match extractInt expiry with
  | Except.error e => Except.error e
  | Except.ok x =>
  if c < 1 then Except.error PyExc.valueErr
  else if m < 0 then Except.error PyExc.valueErr
  else if x < 0 then Except.error PyExc.valueErr
  else Except.ok (Semaphore.create n c.toNat m x.toNat u)

/-- The single-quote character as a string, used to spell messages that
quote attribute names. -/
def singleQuote : String := (Char.ofNat 39).toString

/-- Modelled from the spec: the AttributeError message produced when
assigning to a constructed attribute of the frozen pyo3 Semaphore class
(tests/test_semaphore.py::test_class_attributes). -/
def notWritableMsg (attr : String) : String :=
  "attribute " ++ singleQuote ++ attr ++ singleQuote ++ " of " ++
    singleQuote ++ "self_limiters.Semaphore" ++ singleQuote ++
    " objects is not writable"

/-- Modelled from the spec: constructed attributes are readable but not
writable after construction (spec section 6); every assignment fails
with the AttributeError above, mutating nothing. -/
def Semaphore.setAttr (_s : Semaphore) (attr : String) (_v : PyValue) :
    Except PyExc Semaphore :=
  Except.error (PyExc.attributeErr (notWritableMsg attr))

/-! ## Token bucket limiter object -/

/-- Modelled from the spec: the constructed attributes of the
TokenBucket pyo3 class of the Rust core (not under src/). -/
structure TokenBucket where
  name : String
  capacity : Nat
  refillFrequency : Rat
  refillAmount : Nat
  maxSleep : Rat
  redisUrl : String
deriving DecidableEq

/-- Modelled from the spec: the string representation of a TokenBucket
exposes the fully-qualified queue key
(tests/test_token_bucket.py::test_repr). -/
def TokenBucket.reprString (t : TokenBucket) : String :=
  "Token bucket instance for queue " ++ t.name

/-- Modelled from the spec: validation of the TokenBucket constructor
arguments (spec sections 6 and 7), checked before any I/O. Wrong types
fail with a type error; capacity below 1, refill_frequency not strictly
positive, refill_amount below 1 or a negative max_sleep fail with a
value error. -/
def validateTokenBucket (name capacity refillFrequency refillAmount
    redisUrl : PyValue) (maxSleep : Option PyValue) :
    Except PyExc TokenBucket :=
  match extractStr name with
  | Except.error e => Except.error e
  | Except.ok n =>
  match extractInt capacity with
  | Except.error e => Except.error e
  | Except.ok c =>
  match extractFloat refillFrequency with
  | Except.error e => Except.error e
  | Except.ok f =>
  match extractInt refillAmount with
  | Except.error e => Except.error e
  | Except.ok a =>
  match extractStr redisUrl with
  | Except.error e => Except.error e
  | Except.ok u =>
  match extractOptFloat maxSleep with
  | Except.error e => Except.error e
  | Except.ok m =>
  if c < 1 then Except.error PyExc.valueErr
  else if f ≤ 0 then Except.error PyExc.valueErr
  else if a < 1 then Except.error PyExc.valueErr
  else if m < 0 then Except.error PyExc.valueErr
  else Except.ok ⟨queueKey n, c.toNat, f, a.toNat, m, u⟩

/-! ## Semaphore protocol steps -/

/-- Modelled from the spec: the tokens the initialization script pushes
(spec section 4.1: "push C distinct token strings onto Q(S); any byte
strings; the values are not inspected by clients"). -/
def permitTokens (c : Nat) : List String :=
  (List.range c).map toString

/-- Modelled from the spec: the atomic idempotent initialization script
of the Rust core (not under src/): if the sentinel key does not exist,
create it with value "1" (SETNX), append `capacity` tokens to the queue
(RPUSH) and set TTL `expiry` on both keys; otherwise do nothing. -/
def semaphoreInit (name : String) (capacity expiry : Nat) (σ : Store) :
    Store :=
  match σ.val (sentinelKey name) with
  | some _ => σ
  | none =>
      let old := match σ.val (queueKey name) with
        | some (RVal.list xs) => xs
        | _ => []
      ((((σ.setVal (sentinelKey name) (RVal.str "1")).setVal
          (queueKey name) (RVal.list (old ++ permitTokens capacity))).expire
          (queueKey name) expiry).expire (sentinelKey name) expiry)

/-- Modelled from the spec: a single service of the blocking pop (BLPOP)
against the current store state. A key holding a non-list value answers
the wrong-type store error; a non-empty list pops its head; an empty or
absent list gives no immediate reply (`none`: the caller stays
blocked). -/
def blpopNow (σ : Store) (k : String) :
    Except SLError (Option (String × Store)) :=
  match σ.val k with
  | some (RVal.str _) => Except.error (SLError.storeError wrongTypeMsg)
  | some (RVal.list (x :: xs)) =>
      Except.ok (some (x, σ.setVal k (RVal.list xs)))
  | some (RVal.list []) => Except.ok none
  | none => Except.ok none

/-- Modelled from the spec: whether a blocking pop with bound `maxSleep`
times out, given the delay until a token arrives (`none` when no token
ever arrives). A zero max_sleep blocks indefinitely (never times out);
a positive max_sleep times out exactly when no token arrives strictly
within the bound (spec section 4.1 step 2, and test scenario 3 in which
a token arriving exactly at the bound still raises). -/
def blpopTimesOut (maxSleep : Rat) (tokenDelay : Option Rat) : Bool :=
  if maxSleep = 0 then false
  else
    match tokenDelay with
    | none => true
    | some d => decide (maxSleep ≤ d)

/-- The message of the semaphore MaxSleepExceeded error
(tests/test_semaphore.py::test_max_sleep). -/
def semaphoreMaxSleepMsg : String :=
  "Max sleep exceeded when waiting for Semaphore"

/-- Modelled from the spec: the semaphore wait step of the Rust core
(not under src/): a successful blocking pop returns the permit token;
a pop that timed out (`none`) fails with MaxSleepExceeded carrying the
fixed message. -/
def semaphoreWait (popResult : Option String) : Except SLError String :=
  match popResult with
  | some tok => Except.ok tok
  | none => Except.error (SLError.maxSleepExceeded semaphoreMaxSleepMsg)

/-- Modelled from the spec: the semaphore release step of the Rust core
(not under src/), pinned down by the command trace asserted in
tests/test_semaphore.py::test_redis_instructions: one LPUSH of the
previously popped token onto the queue key, then EXPIRE on the queue
key and EXPIRE on the sentinel key, and no other command. LPUSH
prepends, so the token re-enters the queue at the pop end (the head);
LPUSH against a non-list value fails with the wrong-type store error. -/
def semaphoreRelease (name : String) (expiry : Nat) (tok : String)
    (σ : Store) : Except SLError Store :=
  match σ.val (queueKey name) with
  | some (RVal.str _) => Except.error (SLError.storeError wrongTypeMsg)
  | some (RVal.list xs) =>
      Except.ok (((σ.setVal (queueKey name) (RVal.list (tok :: xs))).expire
        (queueKey name) expiry).expire (sentinelKey name) expiry)
  | none =>
      Except.ok (((σ.setVal (queueKey name) (RVal.list [tok])).expire
        (queueKey name) expiry).expire (sentinelKey name) expiry)

/-- Modelled from the spec: the release push as the spec's words state
it, namely "push the previously-popped token back to the tail" of the
queue, kept separate for comparison with the trace-derived release. -/
def specTailPush (xs : List String) (tok : String) : List String :=
  xs ++ [tok]

/-- A concrete store whose queue for limiter "x" holds one token "a". -/
def sampleStore : Store :=
  ⟨fun k => if k = queueKey "x" then some (RVal.list ["a"]) else none,
   fun _ => none⟩

/-- The outcome each of `k` guards blocked on the queue of `name`
observes when their pending pop is served against store state `σ`. -/
def pendingOutcomes (k : Nat) (name : String) (σ : Store) :
    List (Except SLError (Option (String × Store))) :=
  List.replicate k (blpopNow σ (queueKey name))

/-! ## Token bucket wait phase -/

/-- Modelled from the spec: the message of the token bucket
MaxSleepExceeded error for a wake-up `n` seconds ahead under bound
`maxSleep` (quoted in tests/test_token_bucket.py::test_max_sleep). -/
def bucketMaxSleepMsg (n maxSleep : Nat) : String :=
  "Received wake up time in " ++ toString n ++
    " seconds, which is greater or equal to the specified max sleep of " ++
    toString maxSleep ++ " seconds"

/-- Modelled from the spec: the token bucket pre-sleep check of the Rust
core (not under src/): with `slot` the scheduled wake-up and `now` the
current time (whole seconds), the guard fails with MaxSleepExceeded
before sleeping exactly when max_sleep is positive and the scheduled
wake-up is at least max_sleep ahead of now; otherwise it sleeps the
residual duration (spec section 4.2, wait phase). -/
def bucketPreSleep (slot now maxSleep : Nat) : Except SLError Nat :=
  if 0 < maxSleep ∧ maxSleep ≤ slot - now then
    Except.error
      (SLError.maxSleepExceeded (bucketMaxSleepMsg (slot - now) maxSleep))
  else Except.ok (slot - now)

/-- Modelled from the spec: the atomic scheduling script of the token
bucket (spec section 4.2): read the next-free slot (absent means now),
clamp it against real time, push the stored slot forward by one token's
worth of time (the rounded-up quotient of the tick period by the tokens
per tick) and return the assigned slot. The schedule lives at the queue
key of the bucket's name. -/
def bucketSchedule (name : String) (refillFrequencyMs refillAmount : Nat)
    (nowMs : Nat) (σ : Store) : Nat × Store :=
  let prev := match σ.val (queueKey name) with
    | some (RVal.str s) => (s.toNat?).getD nowMs
    | _ => nowMs
  let slot := max prev nowMs
  let step := (refillFrequencyMs + refillAmount - 1) / refillAmount
  (slot, σ.setVal (queueKey name) (RVal.str (toString (slot + step))))

/-! ## Substrate adapter -/

/-- Error answered by the store for a script call: "no such script"
(the evalsha cache miss) or any other store-reported failure. -/
inductive RedisErr where
  | noScript
  | other (msg : String)
deriving DecidableEq

/-- A command sent on the wire for a script invocation: an EVALSHA
carrying only the hash, or an EVAL carrying the full script content. -/
inductive RedisCmd where
  | evalshaCmd (sha : String) (numKeys : Nat) (args : List String)
  | evalCmd (content : String) (numKeys : Nat) (args : List String)
deriving DecidableEq

/-- The store's two possible answers for one script, fixed for the
duration of one `run_script` call: the EVALSHA outcome and the EVAL
outcome. -/
structure ScriptBackend (V : Type) where
  evalshaRes : Except RedisErr V
  evalRes : Except RedisErr V

/-- Translation of src/src/scripts/run_script.py: try EVALSHA with the
script's hash; on NoScriptError fall back to one EVAL with the full
script content, whose outcome is returned without being caught; any
other error propagates unchanged. The second component records the
commands sent. -/
def run_script {V : Type} (scriptContent scriptSha key : String)
    (capacity : Int) (backend : ScriptBackend V) :
    Except RedisErr V × List RedisCmd :=
  match backend.evalshaRes with
  | Except.ok v =>
      (Except.ok v, [RedisCmd.evalshaCmd scriptSha 1 [key, toString capacity]])
  | Except.error RedisErr.noScript =>
      (backend.evalRes,
       [RedisCmd.evalshaCmd scriptSha 1 [key, toString capacity],
        RedisCmd.evalCmd scriptContent 1 [key, toString capacity]])
  | Except.error (RedisErr.other m) =>
      (Except.error (RedisErr.other m),
       [RedisCmd.evalshaCmd scriptSha 1 [key, toString capacity]])

/-- Modelled from the spec: connection-string parsing by the store
transport (an external collaborator in spec section 1; the redis crate
recognizes the redis, rediss and unix schemes). The string "test" does
not parse; the failure surfaces as a store error. -/
def parseRedisUrl (url : String) : Except SLError Unit :=
  if ("redis://".data.isPrefixOf url.data ||
      "rediss://".data.isPrefixOf url.data ||
      "redis+unix://".data.isPrefixOf url.data ||
      "unix://".data.isPrefixOf url.data) then
    Except.ok ()
  else
    Except.error (SLError.storeError ("failed to parse redis URL " ++ url))

/-- Modelled from the spec: the first acquisition step of a constructed
Semaphore: open a connection (parsing the stored connection string),
then run the initialization script and serve the blocking pop once.
A connection-string parse failure surfaces before any store access. -/
def semaphoreFirstAcquire (s : Semaphore) (σ : Store) :
    Except SLError (Option (String × Store)) :=
  match parseRedisUrl s.redisUrl with
  | Except.error e => Except.error e
  | Except.ok _ =>
      blpopNow (semaphoreInit s.name s.capacity s.expiry σ) s.name

/-- Modelled from the spec: the first acquisition step of a constructed
TokenBucket: open a connection (parsing the stored connection string),
then run the scheduling script. A connection-string parse failure
surfaces before any store access. -/
def bucketFirstAcquire (t : TokenBucket) (nowMs : Nat) (σ : Store) :
    Except SLError (Nat × Store) :=
  match parseRedisUrl t.redisUrl with
  | Except.error e => Except.error e
  | Except.ok _ =>
      Except.ok (bucketSchedule t.name (t.refillFrequency * 1000).floor.toNat
        t.refillAmount nowMs σ)

/-! ## Guard state machine and capacity invariant -/

/-- Modelled from the spec: the abstract shared state of one semaphore,
as the fleet observes it: the tokens available in the queue, and the
number of guards currently in the HELD state (between a successful
blocking pop and the release step). -/
structure SemState where
  queue : List String
  held : Nat
deriving DecidableEq

/-- Modelled from the spec: the interleaved steps the clients of one
semaphore can take (spec section 4.1): `acquire` is a successful
blocking pop (it removes the head token and enters HELD); `release`
pushes a token back and leaves HELD. Both are atomic at the store. -/
inductive SemStep : SemState → SemState → Prop
  | acquire (tok : String) (rest : List String) (held : Nat) :
      SemStep ⟨tok :: rest, held⟩ ⟨rest, held + 1⟩
  | release (tok : String) (q : List String) (held : Nat) :
      SemStep ⟨q, held + 1⟩ ⟨tok :: q, held⟩

/-- States reachable from the initialized state of a semaphore with
capacity `c`: the initialization script fills the queue with `c` tokens
while no guard is in HELD, and every later state follows by client
steps. -/
inductive SemReachable (c : Nat) : SemState → Prop
  | init (toks : List String) (h : toks.length = c) :
      SemReachable c ⟨toks, 0⟩
  | step {s s' : SemState} (hs : SemReachable c s) (hstep : SemStep s s') :
      SemReachable c s'

/-- Number of guards whose hold interval `[x, x + s)` covers instant
`t`, for hold length `s` and start instants `starts`. -/
def countHeldAt (starts : List Nat) (s t : Nat) : Nat :=
  starts.countP (fun x => decide (x ≤ t) && decide (t < x + s))

/-- Ceiling division on naturals, as used by the runtime lower bound
ceil(n div c). -/
def ceilDiv (n c : Nat) : Nat := (n + c - 1) / c

/-! ## Theorems -/

/-- C3: for every limiter name, the semaphore queue key on the wire is
exactly "__self-limiters:" ++ name, the sentinel key is that key
followed by "-exists", and the string representations of the limiters
expose the fully-qualified queue key, e.g. for name "test". -/
theorem c3_key_layout_and_repr (name : String) :
    queueKey name = "__self-limiters:" ++ name ∧
    sentinelKey name = "__self-limiters:" ++ name ++ "-exists" ∧
    (Semaphore.create "test" 1 0 30 "redis://127.0.0.1:6389").reprString =
      "Semaphore instance for queue __self-limiters:test" ∧
    (TokenBucket.mk (queueKey "test") 1 1 1 0
        "redis://127.0.0.1:6389").reprString =
      "Token bucket instance for queue __self-limiters:test" := by
  refine ⟨rfl, ?_, rfl, rfl⟩
  simp [sentinelKey, queueKey, String.append_assoc]

/-- C2 (amended): on guard exit the release step pushes the
previously-popped token back at the head (the pop end) of the queue,
refreshes the TTL of both the queue key and the sentinel key to
`expiry`, and performs no other store mutation. -/
theorem c2_release_pushes_head_and_refreshes_ttl
    (name : String) (expiry : Nat) (tok : String) (σ : Store)
    (xs : List String)
    (h : σ.val (queueKey name) = some (RVal.list xs)) :
    semaphoreRelease name expiry tok σ =
      Except.ok
        ⟨fun k => if k = queueKey name then some (RVal.list (tok :: xs))
          else σ.val k,
         fun k => if k = sentinelKey name ∨ k = queueKey name
          then some expiry else σ.ttl k⟩ := by
  have httl :
      (((σ.setVal (queueKey name) (RVal.list (tok :: xs))).expire
        (queueKey name) expiry).expire (sentinelKey name) expiry).ttl =
      fun k => if k = sentinelKey name ∨ k = queueKey name
        then some expiry else σ.ttl k := by
    funext k
    by_cases h1 : k = sentinelKey name <;> by_cases h2 : k = queueKey name <;>
      simp [Store.setVal, Store.expire, h1, h2]
  simp only [semaphoreRelease, h]
  exact congrArg Except.ok (congrArg₂ Store.mk rfl httl)

/-- Witness for C2's amended theorem at a concrete store. -/
theorem c2_release_witness :
    semaphoreRelease "x" 7 "b" sampleStore =
      Except.ok
        ⟨fun k => if k = queueKey "x" then some (RVal.list ("b" :: ["a"]))
          else sampleStore.val k,
         fun k => if k = sentinelKey "x" ∨ k = queueKey "x"
          then some 7 else sampleStore.ttl k⟩ :=
  c2_release_pushes_head_and_refreshes_ttl "x" 7 "b" sampleStore ["a"]
    (by decide)

/-- C2 as stated is false: at the concrete store whose queue holds
["a"], releasing token "b" yields the queue ["b", "a"] (a head push),
not the tail push ["a", "b"] that the claim describes. -/
theorem c2_tail_push_counterexample :
    ((semaphoreRelease "x" 1 "b" sampleStore).toOption.map
        (fun σ => σ.val (queueKey "x")) =
      some (some (RVal.list ["b", "a"]))) ∧
    specTailPush ["a"] "b" = ["a", "b"] ∧
    ¬ ((semaphoreRelease "x" 1 "b" sampleStore).toOption.map
        (fun σ => σ.val (queueKey "x")) =
      some (some (RVal.list (specTailPush ["a"] "b")))) := by
  refine ⟨?_, rfl, ?_⟩ <;> decide

/-- C4: MaxSleepExceeded is raised exactly when the wait bound is
exceeded. Semaphore side (positive max_sleep): the wait step fails
exactly when the blocking pop returned no token, with the fixed
message, and the bounded pop times out exactly when no token arrives
within max_sleep. TokenBucket side (positive max_sleep): the pre-sleep
check fails exactly when the scheduled wake-up is at least max_sleep
ahead of now, with the quoted message, instantiated for max_sleep 1. -/
theorem c4_max_sleep_exactly_when_bound_exceeded
    (ms : Rat) (d : Option Rat) (pop : Option String)
    (slot now mb : Nat) (hms : 0 < ms) (hmb : 0 < mb) :
    (isMaxSleepErr (semaphoreWait pop) = true ↔ pop = none) ∧
    semaphoreWait none =
      Except.error (SLError.maxSleepExceeded semaphoreMaxSleepMsg) ∧
    (blpopTimesOut ms d = true ↔ ∀ x ∈ d, ms ≤ x) ∧
    (isMaxSleepErr (bucketPreSleep slot now mb) = true ↔
      mb ≤ slot - now) ∧
    (mb ≤ slot - now → bucketPreSleep slot now mb =
      Except.error
        (SLError.maxSleepExceeded (bucketMaxSleepMsg (slot - now) mb))) ∧
    bucketMaxSleepMsg 2 1 =
      "Received wake up time in 2 seconds, which is greater or equal " ++
        "to the specified max sleep of 1 seconds" := by
  refine ⟨?_, rfl, ?_, ?_, ?_, ?_⟩
  · cases pop <;> simp [semaphoreWait, isMaxSleepErr]
  · cases d <;> simp [blpopTimesOut, hms.ne.symm]
  · by_cases h : mb ≤ slot - now <;>
      simp [bucketPreSleep, isMaxSleepErr, hmb, h]
  · intro h; simp [bucketPreSleep, hmb, h]
  · decide

/-- Witness for C4 at a concrete instance: max_sleep 1, wake-up 2
seconds ahead (slot 3, now 1). -/
theorem c4_max_sleep_witness :
    bucketPreSleep 3 1 1 =
      Except.error (SLError.maxSleepExceeded (bucketMaxSleepMsg (3 - 1) 1)) :=
  (c4_max_sleep_exactly_when_bound_exceeded 1 none none 3 1 1
    (by decide) (by decide)).2.2.2.2.1 (by decide)

/-- C6: every script invocation first attempts EVALSHA with the script
hash; a success answers immediately with no further command; a "no such
script" answer triggers exactly one EVAL carrying the full script
content, whose outcome — success or failure — is returned uncaught; any
other store error propagates unchanged with no retry. -/
theorem c6_evalsha_then_eval_fallback {V : Type}
    (content sha key : String) (cap : Int) (b : ScriptBackend V)
    (v : V) (er : Except RedisErr V) (m : String) :
    (run_script content sha key cap b).2.head? =
      some (RedisCmd.evalshaCmd sha 1 [key, toString cap]) ∧
    run_script content sha key cap ⟨Except.ok v, er⟩ =
      (Except.ok v, [RedisCmd.evalshaCmd sha 1 [key, toString cap]]) ∧
    run_script content sha key cap ⟨Except.error RedisErr.noScript, er⟩ =
      (er, [RedisCmd.evalshaCmd sha 1 [key, toString cap],
            RedisCmd.evalCmd content 1 [key, toString cap]]) ∧
    run_script content sha key cap ⟨Except.error (RedisErr.other m), er⟩ =
      (Except.error (RedisErr.other m),
       [RedisCmd.evalshaCmd sha 1 [key, toString cap]]) := by
  refine ⟨?_, rfl, rfl, rfl⟩
  rcases b with ⟨es, ev⟩
  rcases es with e0 | v0
  · cases e0 <;> rfl
  · rfl

/-- C7: construction with the unparsable connection string "test"
succeeds for both limiters (the constructor performs no I/O, so the
bad URL is only stored), and the first acquisition attempted with
either limiter fails with a store error raised by connection-string
parsing, whatever the store state. -/
theorem c7_bad_connection_string (σ : Store) (nowMs : Nat) :
    validateSemaphore (PyValue.pyStr "t") (PyValue.pyInt 1)
      (PyValue.pyStr "test") none (PyValue.pyInt 30) =
      Except.ok (Semaphore.create "t" 1 0 30 "test") ∧
    validateTokenBucket (PyValue.pyStr "t") (PyValue.pyInt 1)
      (PyValue.pyInt 1) (PyValue.pyInt 1) (PyValue.pyStr "test") none =
      Except.ok ⟨queueKey "t", 1, 1, 1, 0, "test"⟩ ∧
    (∃ msg, semaphoreFirstAcquire (Semaphore.create "t" 1 0 30 "test") σ =
      Except.error (SLError.storeError msg)) ∧
    (∃ msg, bucketFirstAcquire ⟨queueKey "t", 1, 1, 1, 0, "test"⟩ nowMs σ =
      Except.error (SLError.storeError msg)) := by
  have hp : parseRedisUrl "test" =
      Except.error (SLError.storeError "failed to parse redis URL test") := by
    decide
  refine ⟨by decide, by decide, ⟨"failed to parse redis URL test", ?_⟩,
    ⟨"failed to parse redis URL test", ?_⟩⟩
  · simp only [semaphoreFirstAcquire, Semaphore.create]
    rw [hp]
  · simp only [bucketFirstAcquire]
    rw [hp]

/-- C8: after an external actor overwrites the queue key with a
non-list value, serving the blocking pop answers the wrong-type store
error, so every guard still pending on that queue fails with the
store error carrying the store's wrong-type message. -/
theorem c8_corrupted_queue_store_error
    (name v : String) (σ : Store) (k : Nat) :
    blpopNow (σ.setVal (queueKey name) (RVal.str v)) (queueKey name) =
      Except.error (SLError.storeError wrongTypeMsg) ∧
    ∀ r ∈ pendingOutcomes k name (σ.setVal (queueKey name) (RVal.str v)),
      r = Except.error (SLError.storeError wrongTypeMsg) := by
  have h : blpopNow (σ.setVal (queueKey name) (RVal.str v)) (queueKey name) =
      Except.error (SLError.storeError wrongTypeMsg) := by
    simp [blpopNow, Store.setVal]
  refine ⟨h, fun r hr => ?_⟩
  rcases List.eq_of_mem_replicate hr with rfl
  exact h

/-- Witness for C8 at a concrete corrupted store with pending guards. -/
theorem c8_corrupted_queue_witness :
    blpopNow (emptyStore.setVal (queueKey "e") (RVal.str "oops"))
        (queueKey "e") =
      Except.error (SLError.storeError wrongTypeMsg) :=
  (c8_corrupted_queue_store_error "e" "oops" emptyStore 3).2 _
    (by simp [pendingOutcomes])

/-- C9: after constructing a Semaphore with name "test", the readable
name attribute equals the fully-qualified queue key, not the raw
constructor argument, and assigning to any constructed attribute fails
with the AttributeError saying the attribute is not writable. -/
theorem c9_readonly_attributes (attr : String) (v : PyValue)
    (s : Semaphore) :
    (Semaphore.create "test" 1 0 30 "redis://127.0.0.1:6389").name =
      "__self-limiters:test" ∧
    (Semaphore.create "test" 1 0 30 "redis://127.0.0.1:6389").name ≠
      "test" ∧
    Semaphore.setAttr s attr v =
      Except.error (PyExc.attributeErr (notWritableMsg attr)) ∧
    notWritableMsg "name" =
      "attribute " ++ singleQuote ++ "name" ++ singleQuote ++ " of " ++
        singleQuote ++ "self_limiters.Semaphore" ++ singleQuote ++
        " objects is not writable" :=
  ⟨rfl, by decide, rfl, rfl⟩

/-- C10: both constructors accept max_sleep None; an omitted max_sleep,
an explicit None and an explicit 0 all resolve to the value 0, and a
zero bound means unbounded waiting: a zero-bound blocking pop never
times out and a zero-bound token bucket pre-sleep never raises. -/
theorem c10_max_sleep_none_defaults_to_zero :
    extractOptFloat none = Except.ok 0 ∧
    extractOptFloat (some PyValue.pyNone) = Except.ok 0 ∧
    extractOptFloat (some (PyValue.pyInt 0)) = Except.ok 0 ∧
    (∀ d, blpopTimesOut 0 d = false) ∧
    (∀ slot now, bucketPreSleep slot now 0 = Except.ok (slot - now)) ∧
    validateSemaphore (PyValue.pyStr "t") (PyValue.pyInt 1)
      (PyValue.pyStr "redis://a.b") none (PyValue.pyInt 30) =
      Except.ok (Semaphore.create "t" 1 0 30 "redis://a.b") ∧
    validateSemaphore (PyValue.pyStr "t") (PyValue.pyInt 1)
      (PyValue.pyStr "redis://a.b") (some PyValue.pyNone)
      (PyValue.pyInt 30) =
      Except.ok (Semaphore.create "t" 1 0 30 "redis://a.b") ∧
    validateTokenBucket (PyValue.pyStr "t") (PyValue.pyInt 1)
      (PyValue.pyInt 1) (PyValue.pyInt 1) (PyValue.pyStr "redis://a.b")
      (some PyValue.pyNone) =
      Except.ok ⟨queueKey "t", 1, 1, 1, 0, "redis://a.b"⟩ := by
  refine ⟨rfl, rfl, by decide, ?_, ?_, by decide, by decide, by decide⟩
  · intro d; simp [blpopTimesOut]
  · intro slot now; simp [bucketPreSleep]

/-- The string constraint of the options table matches exactly the
values the string extractor accepts. -/
theorem isStrVal_eq (v : PyValue) :
    isStrVal v = (match extractStr v with
      | Except.ok _ => true
      | Except.error _ => false) := by
  cases v <;> rfl

/-- The integer-bound constraint of the options table matches exactly
the values the integer extractor accepts, with the bound checked on the
extracted value. -/
theorem intGe_eq (k : Int) (v : PyValue) :
    intGe k v = (match extractInt v with
      | Except.ok n => decide (k ≤ n)
      | Except.error _ => false) := by
  cases v <;> rfl

/-- The positive-number constraint of the options table matches exactly
the values the float extractor accepts, with positivity checked on the
extracted rational. -/
theorem numPos_eq (v : PyValue) :
    numPos v = (match extractFloat v with
      | Except.ok q => decide (0 < q)
      | Except.error _ => false) := by
  cases v <;> simp [extractFloat, numPos, decide_eq_decide, Int.cast_pos]

/-- The optional non-negative constraint for max_sleep matches exactly
the values the optional float extractor accepts, with non-negativity
checked on the extracted rational. -/
theorem optNumNonneg_eq (m : Option PyValue) :
    optNumNonneg m = (match extractOptFloat m with
      | Except.ok q => decide (0 ≤ q)
      | Except.error _ => false) := by
  rcases m with _ | v
  · rfl
  · cases v <;>
      simp [extractOptFloat, extractFloat, optNumNonneg, decide_eq_decide,
        Int.cast_nonneg]

/-- C5: TokenBucket construction succeeds exactly when every parameter
satisfies its constraint in the recognized-options table (name and
redis_url strings, capacity and refill_amount integers at least 1,
refill_frequency a strictly positive number, max_sleep absent, None or
a non-negative number), and Semaphore construction succeeds exactly
when its parameters do (expiry a non-negative integer); validation is a
pure function of the arguments, performed before any store access. The
violating rows of the test tables fail with the value or type error. -/
theorem c5_validation_exactly_the_table
    (n c f a u e : PyValue) (m : Option PyValue) :
    ((∃ t, validateTokenBucket n c f a u m = Except.ok t) ↔
      (isStrVal n && intGe 1 c && numPos f && intGe 1 a && isStrVal u &&
        optNumNonneg m) = true) ∧
    ((∃ s, validateSemaphore n c u m e = Except.ok s) ↔
      (isStrVal n && intGe 1 c && isStrVal u && optNumNonneg m &&
        intGe 0 e) = true) ∧
    validateTokenBucket (PyValue.pyStr "t") (PyValue.pyInt 1)
      (PyValue.pyInt (-1)) (PyValue.pyInt 1) (PyValue.pyStr "redis://a.b")
      none = Except.error PyExc.valueErr ∧
    validateTokenBucket (PyValue.pyStr "t") (PyValue.pyInt 1)
      (PyValue.pyInt 1) (PyValue.pyInt (-1)) (PyValue.pyStr "redis://a.b")
      none = Except.error PyExc.valueErr ∧
    validateTokenBucket (PyValue.pyStr "t") (PyValue.pyInt 0)
      (PyValue.pyInt 1) (PyValue.pyInt 1) (PyValue.pyStr "redis://a.b")
      none = Except.error PyExc.valueErr ∧
    validateSemaphore PyValue.pyNone (PyValue.pyInt 1)
      (PyValue.pyStr "redis://a.b") none (PyValue.pyInt 30) =
      Except.error PyExc.typeErr ∧
    validateSemaphore (PyValue.pyStr "t") (PyValue.pyFloat (11/5))
      (PyValue.pyStr "redis://a.b") none (PyValue.pyInt 30) =
      Except.error PyExc.typeErr ∧
    validateTokenBucket (PyValue.pyStr "t") (PyValue.pyInt 1)
      (PyValue.pyInt 1) (PyValue.pyInt 1) (PyValue.pyBool true) none =
      Except.error PyExc.typeErr := by
  refine ⟨?_, ?_, by decide, by decide, by decide, by decide, by decide,
    by decide⟩
  · rcases hn : extractStr n with en | sn <;>
    rcases hc : extractInt c with ec | ci <;>
    rcases hf : extractFloat f with ef | fi <;>
    rcases ha : extractInt a with ea | ai <;>
    rcases hu : extractStr u with eu | ui <;>
    rcases hm : extractOptFloat m with em | mi <;>
    simp only [validateTokenBucket, isStrVal_eq, intGe_eq, numPos_eq,
      optNumNonneg_eq, hn, hc, hf, ha, hu, hm] <;>
    simp only [Bool.false_and, Bool.true_and, Bool.and_false,
      Bool.and_true] <;>
    first
    | (split_ifs with h1 h2 h3 h4 <;>
        simp_all [not_lt, not_le, le_of_not_lt, lt_of_not_le])
    | simp
  · rcases hn : extractStr n with en | sn <;>
    rcases hc : extractInt c with ec | ci <;>
    rcases hu : extractStr u with eu | ui <;>
    rcases hm : extractOptFloat m with em | mi <;>
    rcases he : extractInt e with ee | ei <;>
    simp only [validateSemaphore, isStrVal_eq, intGe_eq, numPos_eq,
      optNumNonneg_eq, hn, hc, hu, hm, he] <;>
    simp only [Bool.false_and, Bool.true_and, Bool.and_false,
      Bool.and_true] <;>
    first
    | (split_ifs with h1 h2 h3 <;>
        simp_all [not_lt, not_le, le_of_not_lt, lt_of_not_le])
    | simp

/-- Reading a sorted position through the total default-valued getter. -/
theorem getD_lt (l : List Nat) {n : Nat} (h : n < l.length) :
    l.getD n 0 = l.get ⟨n, h⟩ := by
  simp [List.getD_eq_getElem?_getD, List.getElem?_eq_getElem h]

/-- In a list sorted by ≤, positions in order carry values in order. -/
theorem sorted_getD_le (l : List Nat) (hsort : l.Sorted (· ≤ ·))
    {i j : Nat} (hij : i ≤ j) (hj : j < l.length) :
    l.getD i 0 ≤ l.getD j 0 := by
  have hi : i < l.length := lt_of_le_of_lt hij hj
  rw [getD_lt l hi, getD_lt l hj]
  exact hsort.rel_get_of_le (Fin.mk_le_mk.mpr hij)

/-- In-range positions of the default-valued getter are members. -/
theorem getD_mem (l : List Nat) {n : Nat} (hn : n < l.length) :
    l.getD n 0 ∈ l := by
  rw [getD_lt l hn]
  exact l.get_mem n hn

/-- Key separation step: among start instants sorted by ≤ whose hold
intervals of length `s` never overlap more than `C` deep, positions `C`
apart differ by at least `s` — otherwise the `C + 1` starts between them
would all be held at the later start instant. -/
theorem sorted_start_gap (l : List Nat) (hsort : l.Sorted (· ≤ ·))
    (s C i : Nat)
    (hover : ∀ t, l.countP
      (fun x => decide (x ≤ t) && decide (t < x + s)) ≤ C)
    (hiC : i + C < l.length) :
    l.getD i 0 + s ≤ l.getD (i + C) 0 := by
  by_contra hcon
  push_neg at hcon
  have hsub : ((l.drop i).take (C + 1)).Sublist l :=
    (List.take_sublist _ _).trans (List.drop_sublist _ _)
  have hlen : ((l.drop i).take (C + 1)).length = C + 1 := by
    simp [List.length_take, List.length_drop]
    omega
  have hall : ∀ a ∈ (l.drop i).take (C + 1),
      (fun x => decide (x ≤ l.getD (i + C) 0) &&
        decide (l.getD (i + C) 0 < x + s)) a = true := by
    intro a ha
    obtain ⟨k, hk, hEq⟩ := List.getElem_of_mem ha
    rw [hlen] at hk
    have hkd : i + k < l.length := by omega
    have ha2 : a = l.getD (i + k) 0 := by
      rw [← hEq, getD_lt l hkd]
      simp [List.getElem_take, List.getElem_drop, List.get_eq_getElem]
    rw [ha2]
    simp only [Bool.and_eq_true, decide_eq_true_eq]
    refine ⟨sorted_getD_le l hsort (by omega) (by omega), ?_⟩
    have hbase : l.getD i 0 ≤ l.getD (i + k) 0 :=
      sorted_getD_le l hsort (by omega) (by omega)
    omega
  have h1 : ((l.drop i).take (C + 1)).countP
      (fun x => decide (x ≤ l.getD (i + C) 0) &&
        decide (l.getD (i + C) 0 < x + s)) = C + 1 := by
    rw [List.countP_eq_length.mpr hall, hlen]
  have h2 : ((l.drop i).take (C + 1)).countP
      (fun x => decide (x ≤ l.getD (i + C) 0) &&
        decide (l.getD (i + C) 0 < x + s)) ≤ l.countP
      (fun x => decide (x ≤ l.getD (i + C) 0) &&
        decide (l.getD (i + C) 0 < x + s)) :=
    List.Sublist.countP_le _ hsub
  have h3 := hover (l.getD (i + C) 0)
  omega

/-- Chained separation: the `k * C`-th sorted start is at least `k`
hold lengths after the first one. -/
theorem sorted_start_chain (l : List Nat) (hsort : l.Sorted (· ≤ ·))
    (s C : Nat)
    (hover : ∀ t, l.countP
      (fun x => decide (x ≤ t) && decide (t < x + s)) ≤ C)
    (k : Nat) :
    k * C < l.length → l.getD 0 0 + k * s ≤ l.getD (k * C) 0 := by
  induction k with
  | zero =>
      intro hk
      simp [Nat.zero_mul]
  | succ k ih =>
      intro hk
      have hmul : (k + 1) * C = k * C + C := by ring
      rw [hmul] at hk
      have hgap := sorted_start_gap l hsort s C (k * C) hover hk
      have hih := ih (by omega)
      have hsmul : (k + 1) * s = k * s + s := by ring
      rw [hmul, hsmul]
      omega

/-- Lower bound on the fleet runtime: if `starts` lists the hold-start
instants of the guards, each guard holds for `s` time units, at most
`C` guards are ever held at once, and the whole execution window runs
from `base` to `endT`, then the window is at least ceil(n div C) hold
lengths long. -/
theorem makespan_lower_bound (starts : List Nat) (C s base endT : Nat)
    (hC : 0 < C) (hs : 0 < s) (hne : starts ≠ [])
    (hover : ∀ t, countHeldAt starts s t ≤ C)
    (hwin : ∀ x ∈ starts, base ≤ x ∧ x + s ≤ endT) :
    base + ceilDiv starts.length C * s ≤ endT := by
  obtain ⟨l, hperm, hsort⟩ :
      ∃ l, List.Perm l starts ∧ l.Sorted (· ≤ ·) :=
    ⟨starts.mergeSort, List.mergeSort_perm _ _, List.sorted_mergeSort' _⟩
  have hlen : l.length = starts.length := hperm.length_eq
  have hne' : 0 < l.length := by
    rw [hlen]
    exact List.length_pos.mpr hne
  have hover' : ∀ t, l.countP
      (fun x => decide (x ≤ t) && decide (t < x + s)) ≤ C := by
    intro t
    rw [hperm.countP_eq]
    exact hover t
  have hq : (l.length - 1) / C * C ≤ l.length - 1 := Nat.div_mul_le_self _ _
  have hchain := sorted_start_chain l hsort s C hover' ((l.length - 1) / C)
    (by omega)
  have hle2 : l.getD ((l.length - 1) / C * C) 0 ≤ l.getD (l.length - 1) 0 :=
    sorted_getD_le l hsort hq (by omega)
  have hb := (hwin _ ((hperm.mem_iff).mp (getD_mem l hne'))).1
  have he := (hwin _ ((hperm.mem_iff).mp (getD_mem l (show l.length - 1 <
    l.length by omega)))).2
  have hcd : ceilDiv starts.length C = (l.length - 1) / C + 1 := by
    unfold ceilDiv
    rw [← hlen]
    have h1 : l.length + C - 1 = (l.length - 1) + C := by omega
    rw [h1, Nat.add_div_right _ hC]
  rw [hcd]
  have hmul : ((l.length - 1) / C + 1) * s = (l.length - 1) / C * s + s := by
    ring
  rw [hmul]
  omega

/-- Permit conservation along every reachable state: available tokens
plus held permits always equal the capacity. -/
theorem semReachable_queue_add_held (c : Nat) (st : SemState)
    (h : SemReachable c st) : st.queue.length + st.held = c := by
  induction h with
  | init toks ht => simpa using ht
  | step hs hstep ih =>
      cases hstep with
      | acquire tok rest held =>
          simp only [List.length_cons] at ih
          simp only []
          omega
      | release tok q held =>
          simp only [] at ih
          simp only [List.length_cons]
          omega

/-- C1: at every instant of every interleaving, the number of guards in
HELD for a semaphore of capacity c is at most c; consequently, whenever
n guards each hold for s time units with never more than C held at
once, the execution window from the first hold start to the last hold
end spans at least ceil(n div C) times s. -/
theorem c1_capacity_bound_and_min_runtime :
    (∀ (c : Nat) (st : SemState), SemReachable c st → st.held ≤ c) ∧
    (∀ (starts : List Nat) (C s base endT : Nat),
      0 < C → 0 < s → starts ≠ [] →
      (∀ t, countHeldAt starts s t ≤ C) →
      (∀ x ∈ starts, base ≤ x ∧ x + s ≤ endT) →
      base + ceilDiv starts.length C * s ≤ endT) := by
  constructor
  · intro c st h
    have hinv := semReachable_queue_add_held c st h
    omega
  · intro starts C s base endT hC hs hne hover hwin
    exact makespan_lower_bound starts C s base endT hC hs hne hover hwin

/-- Witness for C1: after initializing with one token and acquiring it,
one guard is held, within the capacity 1; and one guard holding for one
unit in the window from 0 to 1 satisfies the ceiling bound. -/
theorem c1_capacity_witness :
    (SemState.mk [] 1).held ≤ 1 ∧ (0 : Nat) + ceilDiv 1 1 * 1 ≤ 1 :=
  ⟨c1_capacity_bound_and_min_runtime.1 1 ⟨[], 1⟩
    (SemReachable.step (SemReachable.init ["a"] rfl)
      (SemStep.acquire "a" [] 0)),
   c1_capacity_bound_and_min_runtime.2 [0] 1 1 0 1 (by decide) (by decide)
    (by decide) (fun t => List.countP_le_length _) (by decide)⟩

end SelfLimiters
